import Mathlib

/-!
Shallow embedding of src/modules/utils/utils.py (wormpy).

The rate limiter AsyncRateLimiter keeps a Python defaultdict(float) from
domain strings to the clock value of the last request.  Time values and
delays are modelled as rationals.  Each call to wait is parameterised by
the clock value read on entry and by the value drawn by
random.uniform(min_delay, max_delay); the scheduler is ideal, so the
clock read after a suspension of s time units is the entry clock plus s.

The defaultdict is an association list in insertion order.  Reading an
absent key through getitem inserts the default 0.0, exactly as
defaultdict(float) does; this happens before the sleep point, which the
embedding records in the field ledgerAtSuspension.
-/

abbrev Ledger := List (String × ℚ)

/-- Lookup of a key in the association list, as dict lookup. -/
def ddFind : Ledger → String → Option ℚ
  | [], _ => none
  | (k, v) :: rest, d => if k = d then some v else ddFind rest d

/-- Embedding of defaultdict(float) getitem: the stored value when the key
is present, else the default 0 together with the ledger extended by the
new key (defaultdict inserts the default on a missing-key access). -/
def ddGetItem (m : Ledger) (d : String) : ℚ × Ledger :=
  match ddFind m d with
  | some v => (v, m)
  | none => (0, m ++ [(d, 0)])

/-- Embedding of dict item assignment: update in place when the key is
present, else append (Python dicts keep insertion order). -/
def ddSet : Ledger → String → ℚ → Ledger
  | [], k, v => [(k, v)]
  | (k', v') :: rest, k, v =>
      if k' = k then (k, v) :: rest else (k', v') :: ddSet rest k v

/-- State of AsyncRateLimiter: min_delay, max_delay and the ledger
last_request_times (utils.py lines 31-34). -/
structure AsyncRateLimiter where
  min_delay : ℚ
  max_delay : ℚ
  last_request_times : Ledger
deriving DecidableEq

/-- Observable outcome of one call to wait: whether asyncio.sleep was
called, for how long, the ledger contents at the suspension point (after
the defaultdict read, before the post-sleep write), the clock value read
after the suspension and stored in the ledger, and the limiter state
after the call completes. -/
structure WaitResult where
  didSleep : Bool
  sleepDuration : ℚ
  ledgerAtSuspension : Ledger
  storedTime : ℚ
  finalState : AsyncRateLimiter
deriving DecidableEq

/-- Embedding of AsyncRateLimiter.wait (utils.py lines 36-51).
current_time is the value of the first time.time() read; r is the value
drawn by random.uniform(min_delay, max_delay).  elapsed is
current_time minus the defaultdict read; when elapsed < r the task
sleeps r - elapsed, and the second time.time() read, stored in the
ledger, is current_time plus the slept amount. -/
def AsyncRateLimiter.wait (st : AsyncRateLimiter) (domain : String)
    (current_time r : ℚ) : WaitResult :=
  let read := ddGetItem st.last_request_times domain
  let elapsed := current_time - read.1
  let sleepAmt := if elapsed < r then r - elapsed else 0
  let now2 := current_time + sleepAmt
  { didSleep := decide (elapsed < r)
    sleepDuration := sleepAmt
    ledgerAtSuspension := read.2
    storedTime := now2
    finalState :=
      { min_delay := st.min_delay
        max_delay := st.max_delay
        last_request_times := ddSet read.2 domain now2 } }

/-- Result of get_scraping_stats (utils.py lines 53-59). -/
structure ScrapingStats where
  urls_in_pool : Nat
  urls_visited : Nat
  is_pool_empty : Bool
deriving DecidableEq

/-- Interface of the external url_tracker collaborator: the three awaited
reads, each of which either yields a value or fails. -/
structure URLTracker where
  get_pool_size : Except String Nat
  get_visited_count : Except String Nat
  is_pool_empty : Except String Bool

/-- Embedding of get_scraping_stats: the three reads are awaited in the
order they appear in the dict literal, and any failure propagates to the
caller unmodified. -/
def get_scraping_stats (tr : URLTracker) : Except String ScrapingStats := do
  let p ← tr.get_pool_size
  let v ← tr.get_visited_count
  let e ← tr.is_pool_empty
  pure { urls_in_pool := p, urls_visited := v, is_pool_empty := e }

/-- One value of the results mapping passed to format_output: the
required content field, the optional discovered_urls list and the
optional metadata dict (metadata values kept as opaque strings). -/
structure ScrapeEntry where
  content : String
  discovered_urls : Option (List String)
  metadata : Option (List (String × String))
deriving DecidableEq

/-- Value returned by format_output: a row-oriented table for csv or a
mapping for json. -/
inductive FormattedOutput where
  | csv (rows : List (List String))
  | json (entries : List (String × ScrapeEntry))
deriving DecidableEq

/-- Embedding of json.dumps on the metadata dict. -/
def dumpsMeta (m : Option (List (String × String))) : String :=
  "\x7b" ++ String.intercalate ", "
    ((m.getD []).map fun kv => "\x22" ++ kv.1 ++ "\x22: " ++ kv.2) ++ "\x7d"

/-- Insert one pair into a key-sorted list, keeping it sorted. -/
def insertByKey (p : String × ScrapeEntry) :
    List (String × ScrapeEntry) → List (String × ScrapeEntry)
  | [] => [p]
  | q :: rest => if p.1 < q.1 then p :: q :: rest else q :: insertByKey p rest

/-- Embedding of dict(sorted(results.items())): the entries in ascending
key order. -/
def sortResults (l : List (String × ScrapeEntry)) :
    List (String × ScrapeEntry) :=
  l.foldr insertByKey []

/-- The essential_fields list of format_output. -/
def essential_fields : List String := ["url", "title", "content_type"]

/-- Embedding of the metadata filtering step of format_output: when the
entry has a metadata dict, keep only the essential keys. -/
def filterEntryMeta (e : ScrapeEntry) : ScrapeEntry :=
  match e.metadata with
  | some m =>
      { content := e.content
        discovered_urls := e.discovered_urls
        metadata := some (m.filter fun kv => essential_fields.contains kv.1) }
  | none => e

/-- Header row of the csv output. -/
def csvHeader (include_urls : Bool) : List String :=
  if include_urls then ["URL", "Content", "Discovered URLs", "Metadata"]
  else ["URL", "Content", "Metadata"]

/-- One data row of the csv output. -/
def csvRow (include_urls : Bool) (kv : String × ScrapeEntry) : List String :=
  if include_urls then
    [kv.1, kv.2.content,
      String.intercalate ", " (kv.2.discovered_urls.getD []),
      dumpsMeta kv.2.metadata]
  else [kv.1, kv.2.content, dumpsMeta kv.2.metadata]

/-- Entry of clean_results in the json branch without include_urls: only
metadata (defaulted to the empty dict) and content are kept. -/
def cleanEntry (e : ScrapeEntry) : ScrapeEntry :=
  { content := e.content
    discovered_urls := none
    metadata := some (e.metadata.getD []) }

/-- Embedding of format_output (utils.py lines 86-147).  The first
component is the returned value or the raised ValueError message; the
second component is the results mapping as the caller sees it after the
call, since the metadata filtering loop mutates the entry dicts that the
caller passed in (dict(sorted(...)) copies the outer dict but aliases
the entry objects). -/
def format_output (results : List (String × ScrapeEntry))
    (output_format : String) (include_urls : Bool)
    (essential_metadata_only : Bool) :
    Except String FormattedOutput × List (String × ScrapeEntry) :=
  let sorted0 := sortResults results
  let sorted_results :=
    if essential_metadata_only then
      sorted0.map fun kv => (kv.1, filterEntryMeta kv.2)
    else sorted0
  let callerResults :=
    if essential_metadata_only then
      results.map fun kv => (kv.1, filterEntryMeta kv.2)
    else results
  let out : Except String FormattedOutput :=
    if output_format = "csv" then
      .ok (.csv (csvHeader include_urls :: sorted_results.map (csvRow include_urls)))
    else if output_format = "json" then
      if include_urls then .ok (.json sorted_results)
      else .ok (.json (sorted_results.map fun kv => (kv.1, cleanEntry kv.2)))
    else
      .error ("Invalid output format: " ++ output_format)
  (out, callerResults)

/-! ## Helper lemmas about the ledger operations -/

theorem ddFind_ddSet_self (m : Ledger) (k : String) (v : ℚ) :
    ddFind (ddSet m k v) k = some v := by
  induction m with
  | nil => simp [ddSet, ddFind]
  | cons p rest ih =>
      obtain ⟨k1, v1⟩ := p
      by_cases h : k1 = k
      · simp [ddSet, h, ddFind]
      · simp [ddSet, h, ddFind, ih]

theorem ddFind_ddSet_ne (m : Ledger) (k d : String) (v : ℚ) (h : d ≠ k) :
    ddFind (ddSet m k v) d = ddFind m d := by
  have hkd : ¬ k = d := fun hh => h hh.symm
  induction m with
  | nil => simp [ddSet, ddFind, hkd]
  | cons p rest ih =>
      obtain ⟨k1, v1⟩ := p
      by_cases hk : k1 = k
      · subst hk
        simp [ddSet, ddFind, hkd]
      · simp [ddSet, hk, ddFind, ih]

theorem ddFind_append_single_ne (m : Ledger) (k d : String) (x : ℚ)
    (h : d ≠ k) :
    ddFind (m ++ [(k, x)]) d = ddFind m d := by
  have hkd : ¬ k = d := fun hh => h hh.symm
  induction m with
  | nil => simp [ddFind, hkd]
  | cons p rest ih =>
      obtain ⟨k1, v1⟩ := p
      by_cases hk : k1 = d
      · simp [ddFind, hk]
      · simp [ddFind, hk, ih]

theorem ddGetItem_fst (m : Ledger) (d : String) :
    (ddGetItem m d).1 = (ddFind m d).getD 0 := by
  unfold ddGetItem
  cases ddFind m d <;> simp

theorem ddGetItem_snd_ne (m : Ledger) (d d2 : String) (h : d2 ≠ d) :
    ddFind (ddGetItem m d).2 d2 = ddFind m d2 := by
  unfold ddGetItem
  cases ddFind m d <;> simp [ddFind_append_single_ne m d d2 0 h]

/-! ## Characterisation of one wait call -/

theorem wait_sleepDuration (st : AsyncRateLimiter) (d : String) (t r : ℚ) :
    (st.wait d t r).sleepDuration =
      if t - (ddFind st.last_request_times d).getD 0 < r
      then r - (t - (ddFind st.last_request_times d).getD 0) else 0 := by
  simp [AsyncRateLimiter.wait, ddGetItem_fst]

theorem wait_didSleep (st : AsyncRateLimiter) (d : String) (t r : ℚ) :
    (st.wait d t r).didSleep =
      decide (t - (ddFind st.last_request_times d).getD 0 < r) := by
  simp [AsyncRateLimiter.wait, ddGetItem_fst]

theorem wait_storedTime (st : AsyncRateLimiter) (d : String) (t r : ℚ) :
    (st.wait d t r).storedTime = t + (st.wait d t r).sleepDuration := rfl

theorem wait_find_self (st : AsyncRateLimiter) (d : String) (t r : ℚ) :
    ddFind ((st.wait d t r).finalState).last_request_times d
      = some ((st.wait d t r).storedTime) :=
  ddFind_ddSet_self _ _ _

/-! ## Claims about the rate limiter -/

/-- Claim C1, amended.  A first wait call for a never-seen domain performs
no sleep provided the entry clock value is at least max_delay: the absent
key reads as the defaultdict default 0, so elapsed equals the current
clock value, which then dominates every admissible random draw. -/
theorem C1_first_wait_no_sleep (st : AsyncRateLimiter) (domain : String)
    (current_time r : ℚ)
    (hnew : ddFind st.last_request_times domain = none)
    (hr : r ≤ st.max_delay) (ht : st.max_delay ≤ current_time) :
    (st.wait domain current_time r).didSleep = false ∧
    (st.wait domain current_time r).sleepDuration = 0 := by
  have hle : r ≤ current_time - (ddFind st.last_request_times domain).getD 0 := by
    rw [hnew]
    simpa using hr.trans ht
  constructor
  · rw [wait_didSleep]
    exact decide_eq_false (not_lt.mpr hle)
  · rw [wait_sleepDuration, if_neg (not_lt.mpr hle)]

/-- Witness for C1_first_wait_no_sleep at a concrete input. -/
theorem C1_first_wait_no_sleep_witness :
    ((⟨1, 2, []⟩ : AsyncRateLimiter).wait "a.com" 100 2).didSleep = false ∧
    ((⟨1, 2, []⟩ : AsyncRateLimiter).wait "a.com" 100 2).sleepDuration = 0 :=
  C1_first_wait_no_sleep ⟨1, 2, []⟩ "a.com" 100 2 rfl (by norm_num) (by norm_num)

/-- Claim C1, counterexample to the claim as stated.  With configuration
min_delay = max_delay = 1 (so min_delay ≤ max_delay and the only possible
random draw is 1), a domain with no ledger entry, and entry clock value 0,
the call sleeps for 1 time unit instead of returning without suspending:
the defaultdict default is the timestamp 0, not the infinite past. -/
theorem C1_counterexample :
    (1 : ℚ) ≤ (1 : ℚ) ∧
    ddFind ([] : Ledger) "a.com" = none ∧
    ((⟨1, 1, []⟩ : AsyncRateLimiter).wait "a.com" 0 1).didSleep = true ∧
    ((⟨1, 1, []⟩ : AsyncRateLimiter).wait "a.com" 0 1).sleepDuration = 1 := by
  refine ⟨le_refl 1, rfl, ?_, ?_⟩
  · rw [wait_didSleep]
    norm_num [ddFind]
  · rw [wait_sleepDuration]
    simp only [ddFind, Option.getD_none]
    rw [if_pos (by norm_num : (0 : ℚ) - 0 < 1)]
    norm_num

/-- Claim C2, amended.  If the domain already has a ledger entry, the
ledger at the sleep point is exactly the ledger from before the call, so
a task cancelled there has not mutated it; if the domain was never seen,
the defaultdict read has already inserted the default entry (domain, 0)
before the sleep point.  In both cases no clock value of this call is
written before the suspension resolves. -/
theorem C2_ledger_at_suspension (st : AsyncRateLimiter) (domain : String)
    (t r : ℚ) :
    ((∃ v, ddFind st.last_request_times domain = some v) →
      (st.wait domain t r).ledgerAtSuspension = st.last_request_times) ∧
    (ddFind st.last_request_times domain = none →
      (st.wait domain t r).ledgerAtSuspension
        = st.last_request_times ++ [(domain, 0)]) := by
  constructor
  · rintro ⟨v, hv⟩
    show (ddGetItem st.last_request_times domain).2 = _
    unfold ddGetItem
    rw [hv]
  · intro h
    show (ddGetItem st.last_request_times domain).2 = _
    unfold ddGetItem
    rw [h]

/-- Claim C2, counterexample to the claim as stated.  Starting from the
empty ledger, a call for a never-seen domain that reaches the sleep point
has already added the entry (domain, 0): the ledger at the suspension
point is not the ledger from before the call. -/
theorem C2_counterexample :
    ddFind ([] : Ledger) "a.com" = none ∧
    ((⟨1, 1, []⟩ : AsyncRateLimiter).wait "a.com" 0 1).didSleep = true ∧
    ((⟨1, 1, []⟩ : AsyncRateLimiter).wait "a.com" 0 1).ledgerAtSuspension
      = [("a.com", 0)] ∧
    ((⟨1, 1, []⟩ : AsyncRateLimiter).wait "a.com" 0 1).ledgerAtSuspension
      ≠ ([] : Ledger) := by
  have hl : ((⟨1, 1, []⟩ : AsyncRateLimiter).wait "a.com" 0 1).ledgerAtSuspension
      = [("a.com", 0)] := rfl
  refine ⟨rfl, ?_, hl, ?_⟩
  · rw [wait_didSleep]
    norm_num [ddFind]
  · rw [hl]
    simp

/-- Claim C3.  Two sequential calls for the same domain: the clock value
at which the second call returns (its post-sleep stored time) is at least
min_delay after the timestamp stored by the first call, for every draw of
the second call inside [min_delay, max_delay]. -/
theorem C3_sequential_min_spacing (st : AsyncRateLimiter) (domain : String)
    (t1 r1 t2 r2 : ℚ) (hmin : st.min_delay ≤ r2) (hmax : r2 ≤ st.max_delay) :
    (st.wait domain t1 r1).storedTime + st.min_delay ≤
      (((st.wait domain t1 r1).finalState).wait domain t2 r2).storedTime := by
  have hfind := wait_find_self st domain t1 r1
  rw [wait_storedTime ((st.wait domain t1 r1).finalState) domain t2 r2,
    wait_sleepDuration ((st.wait domain t1 r1).finalState) domain t2 r2, hfind]
  simp only [Option.getD_some]
  by_cases h : t2 - (st.wait domain t1 r1).storedTime < r2
  · rw [if_pos h]
    linarith
  · rw [if_neg h]
    push_neg at h
    linarith

/-- Witness for C3_sequential_min_spacing at a concrete input. -/
theorem C3_sequential_min_spacing_witness :
    ((⟨1, 3, []⟩ : AsyncRateLimiter).wait "a.com" 100 2).storedTime + 1 ≤
      ((((⟨1, 3, []⟩ : AsyncRateLimiter).wait "a.com" 100 2).finalState).wait
        "a.com" 100 2).storedTime :=
  C3_sequential_min_spacing ⟨1, 3, []⟩ "a.com" 100 2 100 2 (by norm_num)
    (by norm_num)

/-- Claim C4.  The behaviour of wait for a domain depends only on the
ledger entry of that domain: two ledgers agreeing on the domain give the
same sleep decision, the same sleep duration and the same resulting
entry for the domain, whatever the entries for other domains are. -/
theorem C4_domain_independence (mn mx : ℚ) (m1 m2 : Ledger) (domain : String)
    (t r : ℚ) (h : ddFind m1 domain = ddFind m2 domain) :
    ((⟨mn, mx, m1⟩ : AsyncRateLimiter).wait domain t r).sleepDuration =
      ((⟨mn, mx, m2⟩ : AsyncRateLimiter).wait domain t r).sleepDuration ∧
    ((⟨mn, mx, m1⟩ : AsyncRateLimiter).wait domain t r).didSleep =
      ((⟨mn, mx, m2⟩ : AsyncRateLimiter).wait domain t r).didSleep ∧
    ddFind
        (((⟨mn, mx, m1⟩ : AsyncRateLimiter).wait domain t r).finalState).last_request_times
        domain =
      ddFind
        (((⟨mn, mx, m2⟩ : AsyncRateLimiter).wait domain t r).finalState).last_request_times
        domain := by
  have hs : ((⟨mn, mx, m1⟩ : AsyncRateLimiter).wait domain t r).sleepDuration =
      ((⟨mn, mx, m2⟩ : AsyncRateLimiter).wait domain t r).sleepDuration := by
    rw [wait_sleepDuration, wait_sleepDuration]
    show (if t - (ddFind m1 domain).getD 0 < r then _ else _) = _
    rw [h]
  refine ⟨hs, ?_, ?_⟩
  · rw [wait_didSleep, wait_didSleep]
    show decide (t - (ddFind m1 domain).getD 0 < r) = _
    rw [h]
  · rw [wait_find_self, wait_find_self, wait_storedTime, wait_storedTime, hs]

/-- Witness for C4_domain_independence at a concrete input: the two
ledgers agree on a.com (absent in both) and differ on b.com. -/
theorem C4_domain_independence_witness :
    ((⟨1, 2, []⟩ : AsyncRateLimiter).wait "a.com" 100 2).sleepDuration =
      ((⟨1, 2, [("b.com", 50)]⟩ : AsyncRateLimiter).wait "a.com" 100 2).sleepDuration ∧
    ((⟨1, 2, []⟩ : AsyncRateLimiter).wait "a.com" 100 2).didSleep =
      ((⟨1, 2, [("b.com", 50)]⟩ : AsyncRateLimiter).wait "a.com" 100 2).didSleep ∧
    ddFind
        (((⟨1, 2, []⟩ : AsyncRateLimiter).wait "a.com" 100 2).finalState).last_request_times
        "a.com" =
      ddFind
        (((⟨1, 2, [("b.com", 50)]⟩ : AsyncRateLimiter).wait "a.com" 100 2).finalState).last_request_times
        "a.com" :=
  C4_domain_independence 1 2 [] [("b.com", 50)] "a.com" 100 2 (by decide)

/-- Claim C5.  The timestamp stored by wait is the clock value read after
the suspension: it equals the entry clock value plus the slept duration,
and the slept duration is never negative, so when a suspension of s time
units occurs the stored timestamp is s greater than the entry time. -/
theorem C5_stored_time_post_suspension (st : AsyncRateLimiter)
    (domain : String) (t r : ℚ) :
    (st.wait domain t r).storedTime = t + (st.wait domain t r).sleepDuration ∧
    0 ≤ (st.wait domain t r).sleepDuration := by
  refine ⟨rfl, ?_⟩
  rw [wait_sleepDuration]
  by_cases h : t - (ddFind st.last_request_times domain).getD 0 < r
  · rw [if_pos h]
    linarith
  · rw [if_neg h]

/-- Claim C6.  A completed wait call changes no ledger entry other than
the one for its domain, and leaves min_delay and max_delay unchanged. -/
theorem C6_frame (st : AsyncRateLimiter) (domain d2 : String) (t r : ℚ)
    (hne : d2 ≠ domain) :
    ddFind (((st.wait domain t r).finalState).last_request_times) d2
      = ddFind st.last_request_times d2 ∧
    ((st.wait domain t r).finalState).min_delay = st.min_delay ∧
    ((st.wait domain t r).finalState).max_delay = st.max_delay := by
  refine ⟨?_, rfl, rfl⟩
  show ddFind (ddSet (ddGetItem st.last_request_times domain).2 domain _) d2 = _
  rw [ddFind_ddSet_ne _ _ _ _ hne, ddGetItem_snd_ne _ _ _ hne]

/-- Witness for C6_frame at a concrete input. -/
theorem C6_frame_witness :
    ddFind
        (((⟨1, 2, [("b.com", 50)]⟩ : AsyncRateLimiter).wait "a.com" 100 2).finalState).last_request_times
        "b.com"
      = ddFind [("b.com", 50)] "b.com" ∧
    (((⟨1, 2, [("b.com", 50)]⟩ : AsyncRateLimiter).wait "a.com" 100 2).finalState).min_delay = 1 ∧
    (((⟨1, 2, [("b.com", 50)]⟩ : AsyncRateLimiter).wait "a.com" 100 2).finalState).max_delay = 2 :=
  C6_frame ⟨1, 2, [("b.com", 50)]⟩ "a.com" "b.com" 100 2 (by decide)

/-! ## Claims about get_scraping_stats and format_output -/

theorem format_output_fst (results : List (String × ScrapeEntry))
    (output_format : String) (include_urls essential_metadata_only : Bool) :
    (format_output results output_format include_urls essential_metadata_only).1
      = (if output_format = "csv" then
          .ok (.csv (csvHeader include_urls ::
            (if essential_metadata_only then
                (sortResults results).map fun kv => (kv.1, filterEntryMeta kv.2)
              else sortResults results).map (csvRow include_urls)))
        else if output_format = "json" then
          (if include_urls then
            .ok (.json (if essential_metadata_only then
                (sortResults results).map fun kv => (kv.1, filterEntryMeta kv.2)
              else sortResults results))
          else
            .ok (.json ((if essential_metadata_only then
                (sortResults results).map fun kv => (kv.1, filterEntryMeta kv.2)
              else sortResults results).map fun kv => (kv.1, cleanEntry kv.2))))
        else .error ("Invalid output format: " ++ output_format)) := rfl

theorem format_output_snd (results : List (String × ScrapeEntry))
    (output_format : String) (include_urls essential_metadata_only : Bool) :
    (format_output results output_format include_urls essential_metadata_only).2
      = if essential_metadata_only then
          results.map fun kv => (kv.1, filterEntryMeta kv.2)
        else results := rfl

theorem essential_contains (s : String) :
    essential_fields.contains s
      = (s == "url" || s == "title" || s == "content_type") := by
  cases h1 : s == "url" <;> cases h2 : s == "title" <;>
      cases h3 : s == "content_type" <;>
    simp [essential_fields, List.contains, List.elem, h1, h2, h3]

theorem filterEntryMeta_eq (e : ScrapeEntry) :
    filterEntryMeta e =
      { content := e.content
        discovered_urls := e.discovered_urls
        metadata := e.metadata.map fun m =>
          m.filter fun f =>
            f.1 == "url" || f.1 == "title" || f.1 == "content_type" } := by
  have hfun : (fun kv : String × String => essential_fields.contains kv.1)
      = fun f => f.1 == "url" || f.1 == "title" || f.1 == "content_type" :=
    funext fun kv => essential_contains kv.1
  cases e with
  | mk c u m =>
      cases m with
      | none => rfl
      | some l =>
          show ScrapeEntry.mk c u
              (some (l.filter fun kv => essential_fields.contains kv.1)) = _
          rw [hfun]
          rfl

/-- Claim C7.  The snapshot returned by get_scraping_stats carries exactly
the three values read from the url_tracker: pool size, visited count and
pool-empty flag; on an empty store it is the record (0, 0, true). -/
theorem C7_snapshot_fields (tr : URLTracker) (p v : Nat) (b : Bool)
    (hp : tr.get_pool_size = .ok p)
    (hv : tr.get_visited_count = .ok v)
    (he : tr.is_pool_empty = .ok b) :
    get_scraping_stats tr
      = .ok { urls_in_pool := p, urls_visited := v, is_pool_empty := b } := by
  unfold get_scraping_stats
  rw [hp, hv, he]
  rfl

/-- Witness for C7_snapshot_fields on the empty tracking store. -/
theorem C7_snapshot_fields_witness :
    get_scraping_stats ⟨.ok 0, .ok 0, .ok true⟩
      = .ok { urls_in_pool := 0, urls_visited := 0, is_pool_empty := true } :=
  C7_snapshot_fields ⟨.ok 0, .ok 0, .ok true⟩ 0 0 true rfl rfl rfl

/-- Claim C8.  get_scraping_stats performs no recovery: whichever of the
three reads fails first, its failure value is returned to the caller
unmodified, and the function is a pure aggregation of the reads with no
state of its own to modify. -/
theorem C8_read_failure_propagates (tr : URLTracker) (msg : String) :
    (tr.get_pool_size = .error msg → get_scraping_stats tr = .error msg) ∧
    (∀ p, tr.get_pool_size = .ok p → tr.get_visited_count = .error msg →
      get_scraping_stats tr = .error msg) ∧
    (∀ p v, tr.get_pool_size = .ok p → tr.get_visited_count = .ok v →
      tr.is_pool_empty = .error msg → get_scraping_stats tr = .error msg) := by
  refine ⟨fun h => ?_, fun p hp h => ?_, fun p v hp hv h => ?_⟩
  · unfold get_scraping_stats
    rw [h]
    rfl
  · unfold get_scraping_stats
    rw [hp, h]
    rfl
  · unfold get_scraping_stats
    rw [hp, hv, h]
    rfl

/-- Claim C9.  format_output yields the invalid-format error exactly for
selectors outside csv and json; for csv it returns a row table whose
first row is the header, and for json it returns a mapping. -/
theorem C9_format_selector (results : List (String × ScrapeEntry))
    (output_format : String) (include_urls essential_metadata_only : Bool) :
    ((∃ msg, (format_output results output_format include_urls
        essential_metadata_only).1 = .error msg) ↔
      output_format ≠ "csv" ∧ output_format ≠ "json") ∧
    (output_format = "csv" →
      ∃ rows, (format_output results output_format include_urls
        essential_metadata_only).1
          = .ok (.csv (csvHeader include_urls :: rows))) ∧
    (output_format = "json" →
      ∃ entries, (format_output results output_format include_urls
        essential_metadata_only).1 = .ok (.json entries)) := by
  by_cases hc : output_format = "csv"
  · subst hc
    simp [format_output_fst]
  · by_cases hj : output_format = "json"
    · subst hj
      cases include_urls <;> simp [format_output_fst, hc]
    · simp [format_output_fst, hc, hj]

/-- Claim C10.  With essential_metadata_only set, format_output replaces
the metadata of every entry of the results mapping the caller passed in
by its restriction to the keys url, title and content_type (the entry
dicts are aliased, so the caller observes the change), and this happens
even on calls whose format selector is invalid and therefore raise. -/
theorem C10_results_mutated_in_place (results : List (String × ScrapeEntry))
    (output_format : String) (include_urls : Bool) :
    (format_output results output_format include_urls true).2
      = results.map (fun kv =>
          (kv.1,
            { content := kv.2.content
              discovered_urls := kv.2.discovered_urls
              metadata := kv.2.metadata.map fun m =>
                m.filter fun f =>
                  f.1 == "url" || f.1 == "title" || f.1 == "content_type" })) ∧
    (output_format ≠ "csv" → output_format ≠ "json" →
      ∃ msg, (format_output results output_format include_urls true).1
        = .error msg) := by
  constructor
  · rw [format_output_snd, if_pos rfl]
    exact List.map_congr_left fun kv _ => by rw [filterEntryMeta_eq]
  · intro hc hj
    exact ⟨_, by rw [format_output_fst, if_neg hc, if_neg hj]⟩
